import Mathlib

/-!
Shallow embedding of the pool/claim lifecycle orchestrator of the
claim-the-moment-zk repository, covering:

  * the Dexie-backed record store (`src/lib/db.ts`): `EventRecord`,
    `PoolRecord`, `ClaimRecord`, the `eventService` / `poolService` /
    `claimService` functions used by the orchestrator;
  * `createTokenPool` from `src/utils/token/compression/poolOperations.ts`;
  * `claimCompressedToken` from
    `src/utils/token/compression/claimOperations.ts` (both the `transfer`
    variant and the `decompress` variant present in that file).

Remote (ledger) behaviour is modelled by an environment value describing the
outcome of each remote call; store reads that the source wraps in
`try/catch` take an explicit fault flag describing whether the underlying
IndexedDB operation threw.
-/

set_option linter.unusedVariables false

/-- List-level prefix test (`leadsWith pat l` holds when `l` starts with
`pat`), used to model JavaScript `String.prototype.includes`. -/
def leadsWith : List Char → List Char → Bool
  | [], _ => true
  | _ :: _, [] => false
  | a :: as, b :: bs => a == b && leadsWith as bs

/-- List-level substring occurrence test. -/
def occursIn (pat : List Char) : List Char → Bool
  | [] => pat.isEmpty
  | b :: bs => leadsWith pat (b :: bs) || occursIn pat bs

/-- JavaScript `s.includes(pat)`. -/
def jsIncludes (s pat : String) : Bool :=
  occursIn pat.data s.data

/-- JavaScript `s.length` (all strings in this development are ASCII). -/
def strLen (s : String) : Nat := s.data.length

/-- JavaScript `s.substring(0, n)`. -/
def strTake (s : String) (n : Nat) : String := String.mk (s.data.take n)

/-- JavaScript whitespace accepted by `parseInt` (ASCII fragment). -/
def isJsSpace (c : Char) : Bool :=
  c == ' ' || c == '\t' || c == '\n' || c == '\r' || c == '\x0b' || c == '\x0c'

def isDecDigit (c : Char) : Bool := '0' ≤ c && c ≤ '9'

def isHexDigitChar (c : Char) : Bool :=
  ('0' ≤ c && c ≤ '9') || ('a' ≤ c && c ≤ 'f') || ('A' ≤ c && c ≤ 'F')

def decDigitVal (c : Char) : Nat := c.toNat - 48

def hexDigitVal (c : Char) : Nat :=
  if '0' ≤ c && c ≤ '9' then c.toNat - 48
  else if 'a' ≤ c && c ≤ 'f' then c.toNat - 87
  else c.toNat - 55

def digitsToNat (base : Nat) (val : Char → Nat) (ds : List Char) : Nat :=
  ds.foldl (fun acc c => acc * base + val c) 0

/-- JavaScript `parseInt(s)` with no radix argument: skip leading
whitespace, read an optional sign, honour a `0x`/`0X` prefix as base 16,
then take the longest digit prefix; `none` models `NaN`. -/
def jsParseInt (s : String) : Option Int :=
  let cs := s.data.dropWhile isJsSpace
  let signed : Int × List Char :=
    match cs with
    | '-' :: rest => (-1, rest)
    | '+' :: rest => (1, rest)
    | _ => (1, cs)
  match signed.2 with
  | '0' :: 'x' :: rest =>
      let ds := rest.takeWhile isHexDigitChar
      if ds.isEmpty then none
      else some (signed.1 * (digitsToNat 16 hexDigitVal ds : Nat))
  | '0' :: 'X' :: rest =>
      let ds := rest.takeWhile isHexDigitChar
      if ds.isEmpty then none
      else some (signed.1 * (digitsToNat 16 hexDigitVal ds : Nat))
  | other =>
      let ds := other.takeWhile isDecDigit
      if ds.isEmpty then none
      else some (signed.1 * (digitsToNat 10 decDigitVal ds : Nat))

/-- JavaScript `a || b` for strings (`b` when `a` is empty, else `a`). -/
def jsOrElse (a b : String) : String := if strLen a == 0 then b else a

/-- JavaScript `a || b` where `a` is a nullable string field. -/
def jsOrElseOpt (a : Option String) (b : String) : String :=
  match a with
  | none => b
  | some s => if strLen s == 0 then b else s

/-! ## Data model (`src/lib/db.ts`) -/

inductive ClaimStatus where
  | pending
  | confirmed
  | failed
deriving DecidableEq

/-- `EventRecord` of `src/lib/db.ts`; `creator` is additionally read by
`claimOperations.ts` (`eventData.creator`). `id` is the Dexie
auto-increment primary key. -/
structure EventRecord where
  id : Nat
  title : String
  location : String
  date : String
  time : String
  description : String
  attendeeCount : Nat
  symbol : String
  decimals : Nat
  imageUrl : String
  mintAddress : Option String
  transactionId : Option String
  createdAt : String
  creator : String
deriving DecidableEq

/-- `PoolRecord` of `src/lib/db.ts`. `eventId` stores the numeric event id
returned by `getEventIdByMintAddress` (the source stores `event.id`). -/
structure PoolRecord where
  id : Nat
  eventId : Nat
  mintAddress : String
  poolAddress : String
  merkleRoot : Option String
  stateTreeAddress : Option String
  transactionId : String
  compressedAmount : Option Nat
  compressionTxId : Option String
  compressedAt : Option String
  createdAt : String
deriving DecidableEq

/-- `ClaimRecord` of `src/lib/db.ts`. -/
structure ClaimRecord where
  id : Nat
  eventId : String
  walletAddress : String
  status : ClaimStatus
  transactionId : Option String
  errorMessage : Option String
  createdAt : String
deriving DecidableEq

/-- The three Dexie tables plus the auto-increment counters. -/
structure DB where
  events : List EventRecord
  pools : List PoolRecord
  claims : List ClaimRecord
  nextPoolId : Nat
  nextClaimId : Nat
deriving DecidableEq

/-- Decidable equality for `Except`, so that concrete runs of the
orchestration functions can be evaluated by `decide`. -/
instance instDecEqExcept {ε α : Type} [DecidableEq ε] [DecidableEq α] :
    DecidableEq (Except ε α)
  | Except.ok a, Except.ok b =>
      if h : a = b then Decidable.isTrue (congrArg Except.ok h)
      else Decidable.isFalse (fun hc => h (Except.ok.inj hc))
  | Except.ok a, Except.error e => Decidable.isFalse (fun hc => Except.noConfusion hc)
  | Except.error e, Except.ok a => Decidable.isFalse (fun hc => Except.noConfusion hc)
  | Except.error e, Except.error f =>
      if h : e = f then Decidable.isTrue (congrArg Except.error h)
      else Decidable.isFalse (fun hc => h (Except.error.inj hc))

/-! ## Store services (`src/lib/db.ts`) -/

/-- `eventService.getEventById`: `db.events.where('id').equals(parseInt(eventId)).first()`.
When `parseInt` yields `NaN` the IndexedDB key is invalid and the `catch`
returns `null`; this is modelled by returning `none` for `none`. -/
def eventService.getEventById (db : DB) (eventId : String) : Option EventRecord :=
  match jsParseInt eventId with
  | none => none
  | some n => db.events.find? (fun ev => (ev.id : Int) == n)

/-- `poolService.getPoolByMintAddress`: first pool whose `mintAddress`
matches. A `null` mint address (possible because `EventRecord.mintAddress`
is nullable) makes the Dexie key invalid and the `catch` returns `null`. -/
def poolService.getPoolByMintAddress (db : DB) (mintAddress : Option String) :
    Option PoolRecord :=
  match mintAddress with
  | none => none
  | some m => db.pools.find? (fun p => p.mintAddress == m)

/-- `poolService.savePool`: Dexie `add` assigns the auto-increment id. -/
def poolService.savePool (db : DB) (p : PoolRecord) : DB :=
  { db with
    pools := db.pools ++ [{ p with id := db.nextPoolId }]
    nextPoolId := db.nextPoolId + 1 }

/-- `claimService.hasWalletClaimedEvent`:
`db.claims.where({eventId, walletAddress}).first()` coerced to a boolean.
The match is on the (eventId, walletAddress) pair only — the record status
is not inspected.  `fault` models the store read throwing, in which case
the `catch` logs and returns `false`. -/
def claimService.hasWalletClaimedEvent (fault : Bool) (db : DB)
    (eventId walletAddress : String) : Bool :=
  if fault then false
  else
    (db.claims.find? (fun c =>
      c.eventId == eventId && c.walletAddress == walletAddress)).isSome

/-- `claimService.saveClaim`: Dexie `add`, returning the new record's id. -/
def claimService.saveClaim (db : DB) (c : ClaimRecord) : DB × Nat :=
  ({ db with
     claims := db.claims ++ [{ c with id := db.nextClaimId }]
     nextClaimId := db.nextClaimId + 1 },
   db.nextClaimId)

/-- `claimService.updateClaimStatus`: single-row Dexie `update` writing
`{status, transactionId, errorMessage}`. -/
def claimService.updateClaimStatus (db : DB) (claimId : Nat)
    (status : ClaimStatus) (transactionId : Option String)
    (errorMessage : Option String) : DB :=
  { db with
    claims := db.claims.map (fun c =>
      if c.id == claimId then
        { c with status := status, transactionId := transactionId,
                 errorMessage := errorMessage }
      else c) }

/-! ## Pool provisioning (`src/utils/token/compression/poolOperations.ts`) -/

/-- Opaque response of the remote `createTokenPool` call. `other` stands
for a truthy value that is neither a string nor an object (the final
`else` of the extraction block). -/
inductive PoolResponse where
  | nullResp
  | str (s : String)
  | obj (fields : List (String × String))
  | other
deriving DecidableEq

/-- JavaScript truthiness test `!poolResponse` (line 81): `null`/`undefined`
and the empty string are falsy; objects are always truthy. -/
def PoolResponse.isFalsy : PoolResponse → Bool
  | .nullResp => true
  | .str s => strLen s == 0
  | .obj _ => false
  | .other => false

/-- `'k' in response` probing followed by `String(response.k)`. -/
def objGet (fields : List (String × String)) (k : String) : Option String :=
  (fields.find? (fun kv => kv.fst == k)).map Prod.snd

/-- `JSON.stringify` of the modelled flat string-field object. -/
def jsonStringifyObj (fields : List (String × String)) : String :=
  "\x7b" ++
    String.intercalate "," (fields.map (fun kv =>
      "\"" ++ kv.fst ++ "\":\"" ++ kv.snd ++ "\"")) ++
  "\x7d"

/-- `.replace(/[{}"]/g, '')` — strip braces and double quotes. -/
def stripJsonChars (s : String) : String :=
  String.mk (s.data.filter (fun c =>
    !(c == '\x7b' || c == '\x7d' || c == '\"')))

/-- The synthesized fallback id
`manual-pool-${mint.toString().substring(0, 8)}-${Date.now()}`. -/
def manualPoolTxId (mintAddress : String) (nowMs : Nat) : String :=
  "manual-pool-" ++ strTake mintAddress 8 ++ "-" ++ Nat.repr nowMs

/-- The synthesized fallback id of the null-slice error path,
`retry-pool-${mint.toString().substring(0, 8)}-${Date.now()}`. -/
def retryPoolTxId (mintAddress : String) (nowMs : Nat) : String :=
  "retry-pool-" ++ strTake mintAddress 8 ++ "-" ++ Nat.repr nowMs

/-- Transaction-id extraction for a truthy response
(`poolOperations.ts` lines 104–123): string used directly; object probed
for `signature`/`txid`/`transactionId` by presence, else the braceless
`JSON.stringify` truncated to 32 characters; any other value falls back to
the synthesized `manual-pool` id. (`null` would also take the final
`else`, since `poolResponse && typeof poolResponse === 'object'` fails.) -/
def extractTxId (r : PoolResponse) (mintAddress : String) (nowMs : Nat) : String :=
  match r with
  | .str s => s
  | .obj fields =>
      match objGet fields "signature" with
      | some v => v
      | none =>
        match objGet fields "txid" with
        | some v => v
        | none =>
          match objGet fields "transactionId" with
          | some v => v
          | none => strTake (stripJsonChars (jsonStringifyObj fields)) 32
  | .nullResp => manualPoolTxId mintAddress nowMs
  | .other => manualPoolTxId mintAddress nowMs

/-- The full response-normalization step of `createTokenPool`: the falsy
branch (lines 81–101) synthesizes the `manual-pool` id, everything else
goes through the extraction block (lines 104–123). -/
def normalizePoolResponse (r : PoolResponse) (mintAddress : String) (nowMs : Nat) :
    String :=
  if r.isFalsy then manualPoolTxId mintAddress nowMs
  else extractTxId r mintAddress nowMs

/-- The confirmation gate of line 128:
`txId && txId.length >= 32 && !txId.includes('manual-pool')`. A
transaction id passing this gate is treated as a recognized (real)
signature; ids failing it are never confirmed. -/
def recognizedTxId (txId : String) : Bool :=
  !(strLen txId == 0) && decide (32 ≤ strLen txId) && !jsIncludes txId "manual-pool"

/-- The null-slice detection of the catch block (lines 176–178). -/
def nullSliceError (msg : String) : Bool :=
  jsIncludes msg "null is not an object" ||
  jsIncludes msg "t.slice" ||
  jsIncludes msg "Cannot read property \x27slice\x27 of null"

/-- Result shape returned by `createTokenPool` (`TokenPoolResult`). -/
structure TokenPoolResult where
  transactionId : String
  merkleRoot : String
  poolAddress : String
  stateTreeAddress : String
deriving DecidableEq

/-- Outcome of one `confirmTransaction` call; every constructor is
absorbed by the surrounding `try`/`catch`, which is why the orchestrator
results never depend on this value. -/
inductive ConfirmOutcome where
  | ok
  | okWithErr (err : String)
  | threw (msg : String)
deriving DecidableEq

/-- Environment of one `createTokenPool` run: the remote call either
returns a response or throws with a message; `nowMs` is `Date.now()` and
`now` the ISO timestamp used for `createdAt`. -/
structure PoolEnv where
  remote : Except String PoolResponse
  confirmOutcome : ConfirmOutcome
  nowMs : Nat
  now : String

/-- Observable remote/store effects of a `createTokenPool` run. -/
inductive PoolAction where
  | submitCreatePool (mintAddress : String)
  | confirmTx (txId : String)
  | saveRecord (eventId : Nat) (mintAddress : String)
deriving DecidableEq

inductive PoolOutcome where
  | ok (result : TokenPoolResult)
  | errored (message : String)
deriving DecidableEq

/-- `getEventIdByMintAddress` (poolOperations.ts lines 222–228):
`events.find(e => e.mintAddress === mintAddress)` and `event.id`. -/
def getEventIdByMintAddress (db : DB) (mintAddress : String) : Option Nat :=
  (db.events.find? (fun e => e.mintAddress == some mintAddress)).map
    (fun e => e.id)

/-- `savePoolData` (poolOperations.ts lines 230–240). Note: it persists
`poolAddress`, `merkleRoot`, `transactionId` and `createdAt` only — the
`stateTreeAddress` of the result is not saved. -/
def savePoolData (env : PoolEnv) (db : DB) (eventId : Nat)
    (mintAddress : String) (r : TokenPoolResult) : DB :=
  poolService.savePool db
    { id := 0
      eventId := eventId
      mintAddress := mintAddress
      poolAddress := r.poolAddress
      merkleRoot := some r.merkleRoot
      stateTreeAddress := none
      transactionId := r.transactionId
      compressedAmount := none
      compressionTxId := none
      compressedAt := none
      createdAt := env.now }

/-- The repeated `const eventId = await getEventIdByMintAddress(...); if
(eventId) await savePoolData(...)` pattern of `createTokenPool`. -/
def saveIfEventFound (env : PoolEnv) (db : DB) (mintAddress : String)
    (r : TokenPoolResult) : DB × List PoolAction :=
  match getEventIdByMintAddress db mintAddress with
  | some eventId =>
      (savePoolData env db eventId mintAddress r,
       [PoolAction.saveRecord eventId mintAddress])
  | none => (db, [])

/-- `createTokenPool` of `src/utils/token/compression/poolOperations.ts`
(lines 16–219). Faithful control flow:

1. lookup-before-create short-circuit on an existing pool (lines 26–36),
   rebuilding `stateTreeAddress` from the stored `poolAddress`;
2. falsy remote response → synthesized `manual-pool` fallback result,
   saved and returned with no confirmation attempt (lines 81–101);
3. truthy response → extraction, gated confirmation (whose own outcome is
   absorbed), fixed `pending-*` placeholder addresses, save, return
   (lines 104–165);
4. thrown remote error with a null-slice message → synthesized
   `retry-pool` fallback result, saved and returned (lines 176–201);
5. any other thrown error → rethrown, wrapped by the outer catch into
   `Failed to create token pool: ...` (lines 204–218). -/
def createTokenPool (env : PoolEnv) (mintAddress walletPublicKey : String)
    (db : DB) : PoolOutcome × DB × List PoolAction :=
  match poolService.getPoolByMintAddress db (some mintAddress) with
  | some existingPool =>
      (PoolOutcome.ok
        { transactionId := existingPool.transactionId
          merkleRoot := jsOrElseOpt existingPool.merkleRoot "unknown"
          poolAddress := jsOrElse existingPool.poolAddress "unknown"
          stateTreeAddress := jsOrElse existingPool.poolAddress "unknown" },
       db, [])
  | none =>
    match env.remote with
    | Except.ok poolResponse =>
      if poolResponse.isFalsy then
        let fallbackResult : TokenPoolResult :=
          { transactionId := manualPoolTxId mintAddress env.nowMs
            merkleRoot := "pending-merkle-root"
            poolAddress := "pending-pool-address"
            stateTreeAddress := "pending-state-tree" }
        let saved := saveIfEventFound env db mintAddress fallbackResult
        (PoolOutcome.ok fallbackResult, saved.1,
         PoolAction.submitCreatePool mintAddress :: saved.2)
      else
        let txId := extractTxId poolResponse mintAddress env.nowMs
        let confirmTrace : List PoolAction :=
          if recognizedTxId txId then [PoolAction.confirmTx txId] else []
        let poolResult : TokenPoolResult :=
          { transactionId := txId
            merkleRoot := "pending-merkle-root"
            poolAddress := "pending-pool-address"
            stateTreeAddress := "pending-state-tree" }
        let saved := saveIfEventFound env db mintAddress poolResult
        (PoolOutcome.ok poolResult, saved.1,
         PoolAction.submitCreatePool mintAddress :: (confirmTrace ++ saved.2))
    | Except.error msg =>
      if nullSliceError msg then
        let fallbackResult : TokenPoolResult :=
          { transactionId := retryPoolTxId mintAddress env.nowMs
            merkleRoot := "pending-merkle-root"
            poolAddress := "pending-pool-address"
            stateTreeAddress := "pending-state-tree" }
        let saved := saveIfEventFound env db mintAddress fallbackResult
        (PoolOutcome.ok fallbackResult, saved.1,
         PoolAction.submitCreatePool mintAddress :: saved.2)
      else
        (PoolOutcome.errored ("Failed to create token pool: " ++ msg), db,
         [PoolAction.submitCreatePool mintAddress])

/-! ## Claim processing (`src/utils/token/compression/claimOperations.ts`) -/

/-- The value thrown inside the inner `try` of a claim attempt (covering
`new PublicKey(...)`, `getLightConnection()` and the remote
`transfer`/`decompress` call): a `SendTransactionError` with its `logs`
array set, a plain `Error`, or a non-`Error` value. -/
inductive ThrownError where
  | sendTxError (message : String) (logs : List String)
  | plainError (message : String)
  | nonError
deriving DecidableEq

/-- Environment of one `claimCompressedToken` run. `hasClaimedFault` is
whether the store read inside `hasWalletClaimedEvent` throws;
`transferResult` is the outcome of the remote transfer/decompression;
`confirmOutcome` is the confirmation outcome (absorbed by the source);
`now` is the ISO timestamp used for `createdAt`. -/
structure ClaimEnv where
  hasClaimedFault : Bool
  transferResult : Except ThrownError String
  confirmOutcome : ConfirmOutcome
  now : String

/-- Outcome of a claim attempt. The source signals these by returning
`true` or throwing distinct `Error`s: `alreadyClaimed` is the
`You have already claimed a token for this event` throw, `eventNotFound`
the `Event ... not found` throw, `poolNotFound` the
`Token pool for ... not found` throw, `failed` the final
`Failed to claim token: ...` rethrow, and `success` the `return true`
path together with the recorded transaction id. -/
inductive ClaimOutcome where
  | alreadyClaimed
  | eventNotFound
  | poolNotFound
  | success (txId : String)
  | failed (message : String)
deriving DecidableEq

/-- Observable remote/store effects of a claim run, in order.
`submitTransfer`/`submitDecompress` mark the inner `try` reaching its
remote call; `confirmAttempt` the confirmation step; `updateRecord` the
final `updateClaimStatus` write. -/
inductive ClaimAction where
  | insertPending (eventId walletAddress : String)
  | submitTransfer
  | submitDecompress
  | confirmAttempt (txId : String)
  | updateRecord (claimId : Nat) (status : ClaimStatus)
      (transactionId : Option String) (errorMessage : Option String)
deriving DecidableEq

/-- The claim record inserted by step 4 (`claimService.saveClaim` call of
`claimOperations.ts`): status `pending`, no transaction id, no error. -/
def pendingClaim (env : ClaimEnv) (eventId walletAddress : String) : ClaimRecord :=
  { id := 0
    eventId := eventId
    walletAddress := walletAddress
    status := ClaimStatus.pending
    transactionId := none
    errorMessage := none
    createdAt := env.now }

/-- Steps 1–4 of `claimCompressedToken`, identical in both variants of
`claimOperations.ts`: duplicate-existence check, event lookup, pool
lookup, then insertion of the `pending` claim record. Returns the store
state after the insert together with the new record's id; an `error`
value is the early exit before any record is inserted. -/
def claimPrepare (env : ClaimEnv) (eventId recipientWallet : String) (db : DB) :
    Except ClaimOutcome (DB × Nat) :=
  if claimService.hasWalletClaimedEvent env.hasClaimedFault db eventId recipientWallet then
    Except.error ClaimOutcome.alreadyClaimed
  else
    match eventService.getEventById db eventId with
    | none => Except.error ClaimOutcome.eventNotFound
    | some eventData =>
      match poolService.getPoolByMintAddress db eventData.mintAddress with
      | none => Except.error ClaimOutcome.poolNotFound
      | some _ =>
          Except.ok (claimService.saveClaim db (pendingClaim env eventId recipientWallet))

/-- Error-message extraction of the `transfer` variant (lines 112–123 of
`claimOperations.ts`): a `SendTransactionError` with logs joins them,
a plain `Error` passes its message through unchanged, anything else keeps
the `Failed to claim token` default. -/
def claimErrorMessageV1 (e : ThrownError) : String :=
  match e with
  | ThrownError.sendTxError _ logs =>
      "Transaction error: " ++ String.intercalate "\n" logs
  | ThrownError.plainError m => m
  | ThrownError.nonError => "Failed to claim token"

/-- User-guidance string of the decompress variant for backend
`insufficient funds` errors. -/
def insufficientFundsGuidance : String :=
  "Insufficient SOL in your wallet to claim this token. Please add more SOL to your wallet."

/-- User-guidance string of the decompress variant for backend
`no tokens available` errors. -/
def supplyExhaustedGuidance : String :=
  "No tokens available for claiming. All tokens may have been claimed already."

/-- Error-message extraction of the `decompress` variant (lines 255–270
of the second document in `claimOperations.ts`): same as the `transfer`
variant, except that a plain `Error` message containing
`insufficient funds` or `no tokens available` is replaced by the
corresponding user-guidance string. -/
def claimErrorMessageV2 (e : ThrownError) : String :=
  match e with
  | ThrownError.sendTxError _ logs =>
      "Transaction error: " ++ String.intercalate "\n" logs
  | ThrownError.plainError m =>
      if jsIncludes m "insufficient funds" then insufficientFundsGuidance
      else if jsIncludes m "no tokens available" then supplyExhaustedGuidance
      else m
  | ThrownError.nonError => "Failed to claim token"

/-- `claimCompressedToken` of `claimOperations.ts` (the `transfer`
variant, lines 19–141). After `claimPrepare`, the remote transfer either
returns a transaction id — in which case confirmation is attempted, its
outcome absorbed, and the claim record updated to `confirmed` with that
id — or throws, in which case the record is updated to `failed` with the
extracted message and the wrapped error is rethrown. -/
def claimCompressedToken (env : ClaimEnv) (eventId recipientWallet : String)
    (db : DB) : ClaimOutcome × DB × List ClaimAction :=
  match claimPrepare env eventId recipientWallet db with
  | Except.error out => (out, db, [])
  | Except.ok (db1, claimId) =>
    match env.transferResult with
    | Except.ok txId =>
        (ClaimOutcome.success txId,
         claimService.updateClaimStatus db1 claimId ClaimStatus.confirmed (some txId) none,
         [ClaimAction.insertPending eventId recipientWallet,
          ClaimAction.submitTransfer,
          ClaimAction.confirmAttempt txId,
          ClaimAction.updateRecord claimId ClaimStatus.confirmed (some txId) none])
    | Except.error e =>
        let errorMessage := claimErrorMessageV1 e
        (ClaimOutcome.failed ("Failed to claim token: " ++ errorMessage),
         claimService.updateClaimStatus db1 claimId ClaimStatus.failed none (some errorMessage),
         [ClaimAction.insertPending eventId recipientWallet,
          ClaimAction.submitTransfer,
          ClaimAction.updateRecord claimId ClaimStatus.failed none (some errorMessage)])

/-- `claimCompressedToken` of `claimOperations.ts` (the `decompress`
variant, lines 159–288 of the second document in the file): identical
orchestration, with the `decompress` remote call and the classified error
messages of `claimErrorMessageV2`. -/
def claimCompressedTokenLight (env : ClaimEnv) (eventId recipientWallet : String)
    (db : DB) : ClaimOutcome × DB × List ClaimAction :=
  match claimPrepare env eventId recipientWallet db with
  | Except.error out => (out, db, [])
  | Except.ok (db1, claimId) =>
    match env.transferResult with
    | Except.ok txId =>
        (ClaimOutcome.success txId,
         claimService.updateClaimStatus db1 claimId ClaimStatus.confirmed (some txId) none,
         [ClaimAction.insertPending eventId recipientWallet,
          ClaimAction.submitDecompress,
          ClaimAction.confirmAttempt txId,
          ClaimAction.updateRecord claimId ClaimStatus.confirmed (some txId) none])
    | Except.error e =>
        let errorMessage := claimErrorMessageV2 e
        (ClaimOutcome.failed ("Failed to claim token: " ++ errorMessage),
         claimService.updateClaimStatus db1 claimId ClaimStatus.failed none (some errorMessage),
         [ClaimAction.insertPending eventId recipientWallet,
          ClaimAction.submitDecompress,
          ClaimAction.updateRecord claimId ClaimStatus.failed none (some errorMessage)])

/-- `submitsAfterInsert tr seen` holds when every submission action in
`tr` is preceded (in `tr`, or by `seen` from earlier context) by an
`insertPending` action. -/
def submitsAfterInsert : List ClaimAction → Bool → Bool
  | [], _ => true
  | ClaimAction.insertPending _ _ :: rest, _ => submitsAfterInsert rest true
  | ClaimAction.submitTransfer :: rest, seen => seen && submitsAfterInsert rest seen
  | ClaimAction.submitDecompress :: rest, seen => seen && submitsAfterInsert rest seen
  | _ :: rest, seen => submitsAfterInsert rest seen

/-! ## Concrete fixtures used by witnesses and counterexamples -/

/-- A 40-character stand-in for a real base58 transaction signature. -/
def sig40 : String := "FakeSignature40CharactersLong0123456789X"

def mkEvent (i : Nat) (mint : String) : EventRecord :=
  { id := i
    title := "Launch Party"
    location := "HQ"
    date := "2025-02-01"
    time := "10:00"
    description := "demo event"
    attendeeCount := 100
    symbol := "CPOP"
    decimals := 0
    imageUrl := "img"
    mintAddress := some mint
    transactionId := some "mint-create-tx"
    createdAt := "2025-01-31T00:00:00Z"
    creator := "CreatorWallet" }

def mkPool (mint : String) : PoolRecord :=
  { id := 1
    eventId := 1
    mintAddress := mint
    poolAddress := "pending-pool-address"
    merkleRoot := some "pending-merkle-root"
    stateTreeAddress := none
    transactionId := sig40
    compressedAmount := none
    compressionTxId := none
    compressedAt := none
    createdAt := "2025-01-31T00:01:00Z" }

def mkClaim (i : Nat) (e w : String) (st : ClaimStatus) : ClaimRecord :=
  { id := i
    eventId := e
    walletAddress := w
    status := st
    transactionId := none
    errorMessage := none
    createdAt := "2025-01-31T00:02:00Z" }

/-- Event 1 with mint `MintA` and a provisioned pool; no claims yet. -/
def dbReady : DB :=
  { events := [mkEvent 1 "MintA"], pools := [mkPool "MintA"], claims := []
    nextPoolId := 2, nextClaimId := 1 }

/-- `dbReady` after inserting the pending claim of `("1", "WalletR")`. -/
def db1Ready : DB :=
  { events := [mkEvent 1 "MintA"], pools := [mkPool "MintA"]
    claims := [{ id := 1, eventId := "1", walletAddress := "WalletR"
                 status := ClaimStatus.pending, transactionId := none
                 errorMessage := none, createdAt := "2025-02-01T00:00:00Z" }]
    nextPoolId := 2, nextClaimId := 2 }

/-- `dbReady` plus a single `failed` claim for `("1", "WalletA")`. -/
def dbFailedClaim : DB :=
  { events := [mkEvent 1 "MintA"], pools := [mkPool "MintA"]
    claims := [mkClaim 1 "1" "WalletA" ClaimStatus.failed]
    nextPoolId := 2, nextClaimId := 2 }

/-- `dbReady` plus a single `failed` claim for `("1", "WalletB")`. -/
def dbFailedClaimB : DB :=
  { events := [mkEvent 1 "MintA"], pools := [mkPool "MintA"]
    claims := [mkClaim 1 "1" "WalletB" ClaimStatus.failed]
    nextPoolId := 2, nextClaimId := 2 }

/-- `dbReady` plus a single `confirmed` claim for `("1", "WalletA")`. -/
def dbConfirmedClaim : DB :=
  { events := [mkEvent 1 "MintA"], pools := [mkPool "MintA"]
    claims := [mkClaim 1 "1" "WalletA" ClaimStatus.confirmed]
    nextPoolId := 2, nextClaimId := 2 }

/-- Event 1 with mint `MintC3`, no pool provisioned yet. -/
def dbNoPool : DB :=
  { events := [mkEvent 1 "MintC3"], pools := [], claims := []
    nextPoolId := 1, nextClaimId := 1 }

/-- A store whose (auto-increment) event 5 exists, used against parseInt. -/
def dbEventFive : DB :=
  { events := [mkEvent 5 "MintA"], pools := [], claims := []
    nextPoolId := 1, nextClaimId := 1 }

def envClaimOk : ClaimEnv :=
  { hasClaimedFault := false, transferResult := Except.ok "TxOk"
    confirmOutcome := ConfirmOutcome.threw "confirmation timed out"
    now := "2025-02-01T00:00:00Z" }

def envClaimFault : ClaimEnv :=
  { hasClaimedFault := true, transferResult := Except.ok "TxOk2"
    confirmOutcome := ConfirmOutcome.ok, now := "2025-02-01T00:00:00Z" }

def envClaimInsufficient : ClaimEnv :=
  { hasClaimedFault := false
    transferResult := Except.error (ThrownError.plainError
      "Transaction simulation failed: insufficient funds for rent")
    confirmOutcome := ConfirmOutcome.ok, now := "2025-02-01T00:00:00Z" }

/-- A submission failure thrown as a `SendTransactionError` whose `logs`
array is set and whose message contains `insufficient funds`. -/
def envClaimInsufLogs : ClaimEnv :=
  { hasClaimedFault := false
    transferResult := Except.error (ThrownError.sendTxError
      "Transfer failed: insufficient funds for rent"
      ["Program log: insufficient funds"])
    confirmOutcome := ConfirmOutcome.ok, now := "2025-02-01T00:00:00Z" }

def envPoolStr : PoolEnv :=
  { remote := Except.ok (PoolResponse.str sig40)
    confirmOutcome := ConfirmOutcome.ok, nowMs := 1738368000000
    now := "2025-02-01T00:00:00Z" }

def envPoolEmptyObj : PoolEnv :=
  { remote := Except.ok (PoolResponse.obj [])
    confirmOutcome := ConfirmOutcome.ok, nowMs := 1738368000000
    now := "2025-02-01T00:00:00Z" }

/-- Result of the first `createTokenPool` run of the C3 scenario. -/
def r1C3 : TokenPoolResult :=
  { transactionId := sig40, merkleRoot := "pending-merkle-root"
    poolAddress := "pending-pool-address", stateTreeAddress := "pending-state-tree" }

/-- Store state after the first `createTokenPool` run of the C3 scenario. -/
def db1C3 : DB :=
  { events := [mkEvent 1 "MintC3"]
    pools := [{ id := 1, eventId := 1, mintAddress := "MintC3"
                poolAddress := "pending-pool-address"
                merkleRoot := some "pending-merkle-root"
                stateTreeAddress := none, transactionId := sig40
                compressedAmount := none, compressionTxId := none
                compressedAt := none, createdAt := "2025-02-01T00:00:00Z" }]
    claims := [], nextPoolId := 2, nextClaimId := 1 }

/-- Trace of the first `createTokenPool` run of the C3 scenario. -/
def tr1C3 : List PoolAction :=
  [PoolAction.submitCreatePool "MintC3", PoolAction.confirmTx sig40,
   PoolAction.saveRecord 1 "MintC3"]

/-! ## Helper lemmas -/

theorem string_data_append (a b : String) : (a ++ b).data = a.data ++ b.data := rfl

theorem leadsWith_append (cs ds : List Char) : leadsWith cs (cs ++ ds) = true := by
  induction cs with
  | nil => rfl
  | cons a as ih => simp [leadsWith, ih]

theorem occursIn_of_leadsWith {pat l : List Char} (h : leadsWith pat l = true) :
    occursIn pat l = true := by
  cases l with
  | nil =>
    cases pat with
    | nil => rfl
    | cons a as => simp [leadsWith] at h
  | cons b bs => simp [occursIn, h]

theorem occursIn_self_append (pat ds : List Char) : occursIn pat (pat ++ ds) = true :=
  occursIn_of_leadsWith (leadsWith_append pat ds)

theorem manualPoolTxId_includes (mint : String) (nowMs : Nat) :
    jsIncludes (manualPoolTxId mint nowMs) "manual-pool" = true := by
  have h : (manualPoolTxId mint nowMs).data =
      "manual-pool".data ++
        ('-' :: ((strTake mint 8).data ++ ('-' :: (Nat.repr nowMs).data))) := by
    simp only [manualPoolTxId, string_data_append, List.append_assoc]
    rfl
  unfold jsIncludes
  rw [h]
  exact occursIn_self_append _ _

theorem hasWalletClaimedEvent_true_of_record (db : DB) (e w : String)
    (hc : ∃ c, c ∈ db.claims ∧ c.eventId = e ∧ c.walletAddress = w) :
    claimService.hasWalletClaimedEvent false db e w = true := by
  unfold claimService.hasWalletClaimedEvent
  simp only [Bool.false_eq_true, if_false]
  rw [List.find?_isSome]
  obtain ⟨c, hm, he, hw⟩ := hc
  exact ⟨c, hm, by simp [he, hw]⟩

theorem claim_rejected_of_record (env : ClaimEnv) (e w : String) (db : DB)
    (hf : env.hasClaimedFault = false)
    (hc : ∃ c, c ∈ db.claims ∧ c.eventId = e ∧ c.walletAddress = w) :
    claimCompressedToken env e w db = (ClaimOutcome.alreadyClaimed, db, []) := by
  have hb : claimService.hasWalletClaimedEvent env.hasClaimedFault db e w = true := by
    rw [hf]
    exact hasWalletClaimedEvent_true_of_record db e w hc
  simp [claimCompressedToken, claimPrepare, hb]

theorem claimPrepare_ok_eq (env : ClaimEnv) (e w : String) (db db1 : DB) (cid : Nat)
    (h : claimPrepare env e w db = Except.ok (db1, cid)) :
    cid = db.nextClaimId ∧
    db1 = { db with
            claims := db.claims ++ [{ pendingClaim env e w with id := db.nextClaimId }]
            nextClaimId := db.nextClaimId + 1 } := by
  unfold claimPrepare at h
  split at h
  · simp at h
  · split at h
    · simp at h
    · split at h
      · simp at h
      · simp only [claimService.saveClaim, Except.ok.injEq, Prod.mk.injEq] at h
        exact ⟨h.2.symm, h.1.symm⟩

theorem updateClaimStatus_mem (db : DB) (cid : Nat) (st : ClaimStatus)
    (tx err : Option String) (c : ClaimRecord) (hm : c ∈ db.claims) (hid : c.id = cid) :
    { c with status := st, transactionId := tx, errorMessage := err } ∈
      (claimService.updateClaimStatus db cid st tx err).claims := by
  unfold claimService.updateClaimStatus
  refine List.mem_map.mpr ⟨c, hm, ?_⟩
  simp [hid]

theorem createTokenPool_fresh_ok (env : PoolEnv) (mint wallet : String) (db : DB)
    (eid : Nat) (r1 : TokenPoolResult) (db1 : DB) (tr1 : List PoolAction)
    (hnp : poolService.getPoolByMintAddress db (some mint) = none)
    (heid : getEventIdByMintAddress db mint = some eid)
    (h1 : createTokenPool env mint wallet db = (PoolOutcome.ok r1, db1, tr1)) :
    r1.merkleRoot = "pending-merkle-root"
    ∧ r1.poolAddress = "pending-pool-address"
    ∧ db1 = savePoolData env db eid mint r1 := by
  unfold createTokenPool at h1
  rw [hnp] at h1
  cases henv : env.remote with
  | ok resp =>
    rw [henv] at h1
    cases hfal : PoolResponse.isFalsy resp with
    | true =>
      simp only [hfal, if_true, saveIfEventFound, heid,
        Prod.mk.injEq, PoolOutcome.ok.injEq] at h1
      obtain ⟨hr, hdb, htr⟩ := h1
      subst hr
      exact ⟨rfl, rfl, hdb.symm⟩
    | false =>
      simp only [hfal, Bool.false_eq_true, if_false, saveIfEventFound, heid,
        Prod.mk.injEq, PoolOutcome.ok.injEq] at h1
      obtain ⟨hr, hdb, htr⟩ := h1
      subst hr
      exact ⟨rfl, rfl, hdb.symm⟩
  | error msg =>
    rw [henv] at h1
    cases hsl : nullSliceError msg with
    | true =>
      simp only [hsl, if_true, saveIfEventFound, heid,
        Prod.mk.injEq, PoolOutcome.ok.injEq] at h1
      obtain ⟨hr, hdb, htr⟩ := h1
      subst hr
      exact ⟨rfl, rfl, hdb.symm⟩
    | false =>
      simp only [hsl, Bool.false_eq_true, if_false, Prod.mk.injEq] at h1
      exact absurd h1.1 (by simp)

/-! ## Claims -/

/-- C1 (counterexample): in a store whose only Claim record for the pair
`("1", "WalletA")` has status `failed` — with the event and its pool both
present, and an environment whose transfer would succeed — the claim
operation still exits with the already-claimed rejection and performs no
remote or store action, instead of proceeding to attempt the transfer. -/
theorem c1_counterexample :
    claimCompressedToken envClaimOk "1" "WalletA" dbFailedClaim
      = (ClaimOutcome.alreadyClaimed, dbFailedClaim, []) := by decide

/-- C1 (amended): an existing Claim record of status `failed` for the
(event id, wallet) pair also causes the claim call to be rejected as
already claimed (when the store read of the duplicate check succeeds) —
`hasWalletClaimedEvent` matches records of every status, so only pairs
with no Claim record at all pass the duplicate-existence check. -/
theorem c1_theorem (env : ClaimEnv) (e w : String) (db : DB)
    (hf : env.hasClaimedFault = false)
    (hc : ∃ c, c ∈ db.claims ∧ c.eventId = e ∧ c.walletAddress = w
            ∧ c.status = ClaimStatus.failed) :
    claimCompressedToken env e w db = (ClaimOutcome.alreadyClaimed, db, []) := by
  obtain ⟨c, hm, he, hw, _⟩ := hc
  exact claim_rejected_of_record env e w db hf ⟨c, hm, he, hw⟩

/-- C1 (witness): concrete run of the amended claim on a store holding a
single failed claim for `("1", "WalletB")`. -/
theorem c1_witness :
    claimCompressedToken envClaimOk "1" "WalletB" dbFailedClaimB
      = (ClaimOutcome.alreadyClaimed, dbFailedClaimB, []) :=
  c1_theorem envClaimOk "1" "WalletB" dbFailedClaimB (by decide)
    ⟨mkClaim 1 "1" "WalletB" ClaimStatus.failed, by decide, by decide, by decide, by decide⟩

/-- C2: when a `confirmed` Claim record exists for the (event id, wallet)
pair and the duplicate-check store read succeeds, the claim call returns
the already-claimed outcome with the store unchanged (so no new Claim
record) and an empty action trace (so no remote submission). -/
theorem c2_theorem (env : ClaimEnv) (e w : String) (db : DB)
    (hf : env.hasClaimedFault = false)
    (hc : ∃ c, c ∈ db.claims ∧ c.eventId = e ∧ c.walletAddress = w
            ∧ c.status = ClaimStatus.confirmed) :
    claimCompressedToken env e w db = (ClaimOutcome.alreadyClaimed, db, []) := by
  obtain ⟨c, hm, he, hw, _⟩ := hc
  exact claim_rejected_of_record env e w db hf ⟨c, hm, he, hw⟩

/-- C2 (witness): concrete duplicate claim against a store holding a
confirmed claim for `("1", "WalletA")`. -/
theorem c2_witness :
    claimCompressedToken envClaimOk "1" "WalletA" dbConfirmedClaim
      = (ClaimOutcome.alreadyClaimed, dbConfirmedClaim, []) :=
  c2_theorem envClaimOk "1" "WalletA" dbConfirmedClaim (by decide)
    ⟨mkClaim 1 "1" "WalletA" ClaimStatus.confirmed, by decide, by decide, by decide, by decide⟩

/-- C4 (counterexample): applied to the empty-object response `{}`, the
normalization step of `createTokenPool` yields the brace-stripped
`JSON.stringify` — the empty string — not a synthesized, non-empty,
deterministically-prefixed placeholder id. -/
theorem c4_counterexample :
    normalizePoolResponse (PoolResponse.obj []) "MintExample1234" 1738368000000 = ""
    ∧ strLen "" = 0 := by decide

/-- C4 (amended): the normalizer yields `"abc123"` for the string response
and for the `signature`/`txid` object shapes; for `null` it yields the
synthesized `manual-pool-<mint prefix>-<timestamp>` placeholder, which is
prefixed and treated as unrecognized (never confirmed); for `{}` it yields
the empty string, likewise treated as unrecognized but empty and
unprefixed. -/
theorem c4_theorem (mint : String) (nowMs : Nat) :
    normalizePoolResponse (PoolResponse.str "abc123") mint nowMs = "abc123"
    ∧ normalizePoolResponse (PoolResponse.obj [("signature", "abc123")]) mint nowMs = "abc123"
    ∧ normalizePoolResponse (PoolResponse.obj [("txid", "abc123")]) mint nowMs = "abc123"
    ∧ normalizePoolResponse PoolResponse.nullResp mint nowMs = manualPoolTxId mint nowMs
    ∧ jsIncludes (manualPoolTxId mint nowMs) "manual-pool" = true
    ∧ recognizedTxId (manualPoolTxId mint nowMs) = false
    ∧ normalizePoolResponse (PoolResponse.obj []) mint nowMs = ""
    ∧ recognizedTxId "" = false := by
  refine ⟨rfl, rfl, rfl, rfl, manualPoolTxId_includes mint nowMs, ?_, rfl, by decide⟩
  simp [recognizedTxId, manualPoolTxId_includes mint nowMs]

/-- C3 (counterexample): provisioning twice for mint `MintC3` from a store
with no pool: the second call's result differs from the first call's —
`savePoolData` does not persist `stateTreeAddress`, and the short-circuit
rebuilds it from the stored `poolAddress`, so the first call returns
`stateTreeAddress = "pending-state-tree"` while the second returns
`"pending-pool-address"`. -/
theorem c3_counterexample :
    (createTokenPool envPoolStr "MintC3" "CreatorWallet"
        ((createTokenPool envPoolStr "MintC3" "CreatorWallet" dbNoPool).2.1)).1
      ≠ (createTokenPool envPoolStr "MintC3" "CreatorWallet" dbNoPool).1 := by decide

/-- C3 (amended): from a store with no pool for the mint and with the
event present, a first successful `createTokenPool` call leaves exactly
one Pool record for the mint, and a second call short-circuits on that
record — performing no remote submission and leaving the store unchanged —
returning the persisted `transactionId`, `merkleRoot` and `poolAddress`
unchanged; the `stateTreeAddress`, however, is reconstructed from the
stored `poolAddress` (it is never persisted), so the second call's result
can differ from the first call's in that field. -/
theorem c3_theorem (env1 env2 : PoolEnv) (mint w1 w2 : String) (db : DB)
    (r1 : TokenPoolResult) (db1 : DB) (tr1 : List PoolAction)
    (hnp : poolService.getPoolByMintAddress db (some mint) = none)
    (hev : (getEventIdByMintAddress db mint).isSome = true)
    (h1 : createTokenPool env1 mint w1 db = (PoolOutcome.ok r1, db1, tr1)) :
    (db1.pools.filter (fun p => p.mintAddress == mint)).length = 1
    ∧ ∃ r2, createTokenPool env2 mint w2 db1 = (PoolOutcome.ok r2, db1, [])
        ∧ r2.transactionId = r1.transactionId
        ∧ r2.merkleRoot = r1.merkleRoot
        ∧ r2.poolAddress = r1.poolAddress := by
  obtain ⟨eid, heid⟩ := Option.isSome_iff_exists.mp hev
  obtain ⟨hmr, hpa, hdb1⟩ :=
    createTokenPool_fresh_ok env1 mint w1 db eid r1 db1 tr1 hnp heid h1
  have hnone : db.pools.find? (fun p => p.mintAddress == mint) = none := by
    simpa [poolService.getPoolByMintAddress] using hnp
  have hfilter : db.pools.filter (fun p => p.mintAddress == mint) = [] :=
    List.filter_eq_nil_iff.mpr (by
      intro a ha
      have := List.find?_eq_none.mp hnone a ha
      simpa using this)
  subst hdb1
  constructor
  · simp [savePoolData, poolService.savePool, List.filter_append, hfilter]
  · have hfound : poolService.getPoolByMintAddress
        (savePoolData env1 db eid mint r1) (some mint) =
        some { id := db.nextPoolId, eventId := eid, mintAddress := mint
               poolAddress := r1.poolAddress, merkleRoot := some r1.merkleRoot
               stateTreeAddress := none, transactionId := r1.transactionId
               compressedAmount := none, compressionTxId := none
               compressedAt := none, createdAt := env1.now } := by
      simp [poolService.getPoolByMintAddress, savePoolData, poolService.savePool,
        List.find?_append, hnone]
    refine ⟨{ transactionId := r1.transactionId
              merkleRoot := jsOrElseOpt (some r1.merkleRoot) "unknown"
              poolAddress := jsOrElse r1.poolAddress "unknown"
              stateTreeAddress := jsOrElse r1.poolAddress "unknown" },
      by simp [createTokenPool, hfound], rfl, ?_, ?_⟩
    · rw [hmr]
      show jsOrElseOpt (some "pending-merkle-root") "unknown" = "pending-merkle-root"
      decide
    · rw [hpa]
      show jsOrElse "pending-pool-address" "unknown" = "pending-pool-address"
      decide

/-- C3 (witness): the concrete two-run scenario behind the counterexample,
showing the amended claim's guarantees hold there. -/
theorem c3_witness :
    (db1C3.pools.filter (fun p => p.mintAddress == "MintC3")).length = 1
    ∧ ∃ r2, createTokenPool envPoolEmptyObj "MintC3" "CreatorWallet" db1C3
          = (PoolOutcome.ok r2, db1C3, [])
        ∧ r2.transactionId = r1C3.transactionId
        ∧ r2.merkleRoot = r1C3.merkleRoot
        ∧ r2.poolAddress = r1C3.poolAddress :=
  c3_theorem envPoolStr envPoolEmptyObj "MintC3" "CreatorWallet" "CreatorWallet"
    dbNoPool r1C3 db1C3 tr1C3 (by decide) (by decide) (by decide)

theorem recognized_not_manual (t : String) (h : recognizedTxId t = true) :
    jsIncludes t "manual-pool" = false := by
  simp [recognizedTxId, Bool.and_eq_true] at h
  exact h.2

theorem createTokenPool_ok_of_resp (env : PoolEnv) (mint wallet : String) (db : DB)
    (r : PoolResponse) (hr : env.remote = Except.ok r) :
    ∃ res, (createTokenPool env mint wallet db).1 = PoolOutcome.ok res := by
  unfold createTokenPool
  rw [hr]
  cases hpool : poolService.getPoolByMintAddress db (some mint) with
  | some p => exact ⟨_, rfl⟩
  | none =>
    cases hfal : PoolResponse.isFalsy r with
    | true => simp only [hfal, if_true]; exact ⟨_, rfl⟩
    | false => simp only [hfal, Bool.false_eq_true, if_false]; exact ⟨_, rfl⟩

theorem createTokenPool_confirm_recognized (env : PoolEnv) (mint wallet : String)
    (db : DB) (t : String)
    (ht : PoolAction.confirmTx t ∈ (createTokenPool env mint wallet db).2.2) :
    recognizedTxId t = true := by
  unfold createTokenPool at ht
  rcases hpool : poolService.getPoolByMintAddress db (some mint) with _ | p <;>
    rw [hpool] at ht
  · rcases henv : env.remote with msg | resp <;> rw [henv] at ht
    · cases hsl : nullSliceError msg <;>
        rcases heid : getEventIdByMintAddress db mint with _ | eid <;>
        simp [hsl, saveIfEventFound, heid] at ht
    · cases hfal : PoolResponse.isFalsy resp with
      | true =>
        rcases heid : getEventIdByMintAddress db mint with _ | eid <;>
          simp [hfal, saveIfEventFound, heid] at ht
      | false =>
        cases hrec : recognizedTxId (extractTxId resp mint env.nowMs) with
        | true =>
          rcases heid : getEventIdByMintAddress db mint with _ | eid <;>
            simp [hfal, hrec, saveIfEventFound, heid] at ht <;>
            rw [ht]
          · exact hrec
          · exact hrec
        | false =>
          rcases heid : getEventIdByMintAddress db mint with _ | eid <;>
            simp [hfal, hrec, saveIfEventFound, heid] at ht
  · simp at ht

/-- C5: in every `createTokenPool` run, any transaction id passed to the
confirmation step satisfies the recognition gate (in particular it is
never a synthesized `manual-pool` placeholder), and whenever the remote
call returns a response — including the falsy and empty-object shapes
that force a placeholder fallback — the operation still completes with an
`ok` result rather than a failure. -/
theorem c5_theorem (env : PoolEnv) (mint wallet : String) (db : DB) :
    (∀ t, PoolAction.confirmTx t ∈ (createTokenPool env mint wallet db).2.2 →
        recognizedTxId t = true ∧ jsIncludes t "manual-pool" = false)
    ∧ (∀ r, env.remote = Except.ok r →
        ∃ res, (createTokenPool env mint wallet db).1 = PoolOutcome.ok res) := by
  constructor
  · intro t ht
    have h := createTokenPool_confirm_recognized env mint wallet db t ht
    exact ⟨h, recognized_not_manual t h⟩
  · intro r hr
    exact createTokenPool_ok_of_resp env mint wallet db r hr

/-- C5 (witness): the real-signature run confirms only the recognized
40-character id, and the empty-object fallback run still completes. -/
theorem c5_witness :
    (recognizedTxId sig40 = true ∧ jsIncludes sig40 "manual-pool" = false)
    ∧ ∃ res, (createTokenPool envPoolEmptyObj "MintC3" "CreatorWallet" dbNoPool).1
        = PoolOutcome.ok res :=
  ⟨(c5_theorem envPoolStr "MintC3" "CreatorWallet" dbNoPool).1 sig40 (by decide),
   (c5_theorem envPoolEmptyObj "MintC3" "CreatorWallet" dbNoPool).2
     (PoolResponse.obj []) rfl⟩

/-- C6: in every claim run, any transfer submission in the action trace is
preceded by the insertion of the pending claim record; and whenever the
run reaches the insert step (`claimPrepare` succeeds), the store state at
submission time — the state a crash during submission would leave behind —
already contains a `pending` Claim record for the (event id, wallet)
pair. -/
theorem c6_theorem (env : ClaimEnv) (e w : String) (db : DB) :
    submitsAfterInsert (claimCompressedToken env e w db).2.2 false = true
    ∧ (∀ db1 cid, claimPrepare env e w db = Except.ok (db1, cid) →
        ∃ c, c ∈ db1.claims ∧ c.id = cid ∧ c.eventId = e ∧ c.walletAddress = w
          ∧ c.status = ClaimStatus.pending) := by
  constructor
  · cases hprep : claimPrepare env e w db with
    | error out => simp [claimCompressedToken, hprep, submitsAfterInsert]
    | ok pair =>
      cases htr : env.transferResult with
      | ok txId => simp [claimCompressedToken, hprep, htr, submitsAfterInsert]
      | error err => simp [claimCompressedToken, hprep, htr, submitsAfterInsert]
  · intro db1 cid hprep
    obtain ⟨hcid, hdb1⟩ := claimPrepare_ok_eq env e w db db1 cid hprep
    refine ⟨{ pendingClaim env e w with id := db.nextClaimId }, ?_, ?_, rfl, rfl, rfl⟩
    · rw [hdb1]
      exact List.mem_append_right _ (List.mem_singleton.mpr rfl)
    · rw [hcid]

/-- C6 (witness): concrete run against `dbReady`; the pending record for
`("1", "WalletR")` is present in the pre-submission state `db1Ready`. -/
theorem c6_witness :
    submitsAfterInsert (claimCompressedToken envClaimOk "1" "WalletR" dbReady).2.2 false = true
    ∧ ∃ c, c ∈ db1Ready.claims ∧ c.id = 1 ∧ c.eventId = "1" ∧ c.walletAddress = "WalletR"
        ∧ c.status = ClaimStatus.pending :=
  ⟨(c6_theorem envClaimOk "1" "WalletR" dbReady).1,
   (c6_theorem envClaimOk "1" "WalletR" dbReady).2 db1Ready 1 (by decide)⟩

/-- C7: whenever the remote transfer submission returns a transaction id,
the pending claim record is updated to `confirmed` with that id and the
run reports success — and the whole run is independent of the
confirmation outcome, so a confirmation timeout, thrown error, or
reported transaction failure does not change the record. -/
theorem c7_theorem (env : ClaimEnv) (e w : String) (db db1 : DB) (cid : Nat)
    (txId : String)
    (hp : claimPrepare env e w db = Except.ok (db1, cid))
    (ht : env.transferResult = Except.ok txId) :
    (claimCompressedToken env e w db).1 = ClaimOutcome.success txId
    ∧ (∃ c, c ∈ (claimCompressedToken env e w db).2.1.claims ∧ c.id = cid
        ∧ c.status = ClaimStatus.confirmed ∧ c.transactionId = some txId)
    ∧ (∀ co : ConfirmOutcome,
        claimCompressedToken { env with confirmOutcome := co } e w db
          = claimCompressedToken env e w db) := by
  obtain ⟨hcid, hdb1⟩ := claimPrepare_ok_eq env e w db db1 cid hp
  refine ⟨by simp [claimCompressedToken, hp, ht], ?_, ?_⟩
  · have hmem : ({ pendingClaim env e w with id := db.nextClaimId } : ClaimRecord)
        ∈ db1.claims := by
      rw [hdb1]
      exact List.mem_append_right _ (List.mem_singleton.mpr rfl)
    have hupd := updateClaimStatus_mem db1 cid ClaimStatus.confirmed (some txId) none
      { pendingClaim env e w with id := db.nextClaimId } hmem (by rw [hcid])
    refine ⟨{ { pendingClaim env e w with id := db.nextClaimId } with
              status := ClaimStatus.confirmed
              transactionId := some txId
              errorMessage := none }, ?_, by rw [hcid], rfl, rfl⟩
    simpa [claimCompressedToken, hp, ht] using hupd
  · intro co
    cases env
    rfl

/-- C7 (witness): concrete successful transfer against `dbReady` with an
environment whose confirmation step times out. -/
theorem c7_witness :
    (claimCompressedToken envClaimOk "1" "WalletR" dbReady).1 = ClaimOutcome.success "TxOk"
    ∧ (∃ c, c ∈ (claimCompressedToken envClaimOk "1" "WalletR" dbReady).2.1.claims
        ∧ c.id = 1 ∧ c.status = ClaimStatus.confirmed ∧ c.transactionId = some "TxOk")
    ∧ (∀ co : ConfirmOutcome,
        claimCompressedToken { envClaimOk with confirmOutcome := co } "1" "WalletR" dbReady
          = claimCompressedToken envClaimOk "1" "WalletR" dbReady) :=
  c7_theorem envClaimOk "1" "WalletR" dbReady db1Ready 1 "TxOk" (by decide) rfl

/-- C8 (amended): in the decompress variant, when the remote submission
throws a plain `Error` (not a `SendTransactionError` carrying logs) whose
message contains `insufficient funds`, the pending claim record is
updated to `failed` with the user-guidance message — which asks the user
to add more SOL and differs from the raw backend message — and the run
reports the wrapped failure outcome. (A `SendTransactionError` with logs
bypasses the classifier; see the counterexample.) -/
theorem c8_theorem (env : ClaimEnv) (e w : String) (db db1 : DB) (cid : Nat)
    (m : String)
    (hp : claimPrepare env e w db = Except.ok (db1, cid))
    (ht : env.transferResult = Except.error (ThrownError.plainError m))
    (hm : jsIncludes m "insufficient funds" = true) :
    (claimCompressedTokenLight env e w db).1
      = ClaimOutcome.failed ("Failed to claim token: " ++ insufficientFundsGuidance)
    ∧ (∃ c, c ∈ (claimCompressedTokenLight env e w db).2.1.claims ∧ c.id = cid
        ∧ c.status = ClaimStatus.failed ∧ c.errorMessage = some insufficientFundsGuidance)
    ∧ jsIncludes insufficientFundsGuidance "add more SOL" = true
    ∧ insufficientFundsGuidance ≠ m := by
  obtain ⟨hcid, hdb1⟩ := claimPrepare_ok_eq env e w db db1 cid hp
  have hclass : claimErrorMessageV2 (ThrownError.plainError m) = insufficientFundsGuidance := by
    simp [claimErrorMessageV2, hm]
  refine ⟨by simp [claimCompressedTokenLight, hp, ht, hclass], ?_, by decide, ?_⟩
  · have hmem : ({ pendingClaim env e w with id := db.nextClaimId } : ClaimRecord)
        ∈ db1.claims := by
      rw [hdb1]
      exact List.mem_append_right _ (List.mem_singleton.mpr rfl)
    have hupd := updateClaimStatus_mem db1 cid ClaimStatus.failed none
      (some (claimErrorMessageV2 (ThrownError.plainError m)))
      { pendingClaim env e w with id := db.nextClaimId } hmem (by rw [hcid])
    refine ⟨{ { pendingClaim env e w with id := db.nextClaimId } with
              status := ClaimStatus.failed
              transactionId := none
              errorMessage := some insufficientFundsGuidance }, ?_, by rw [hcid], rfl, rfl⟩
    rw [← hclass]
    simpa [claimCompressedTokenLight, hp, ht] using hupd
  · intro heq
    have hfalse : jsIncludes insufficientFundsGuidance "insufficient funds" = false := by
      decide
    rw [heq] at hfalse
    rw [hm] at hfalse
    exact Bool.noConfusion hfalse

/-- C8 (witness): concrete insufficient-funds failure against `dbReady`. -/
theorem c8_witness :
    (claimCompressedTokenLight envClaimInsufficient "1" "WalletR" dbReady).1
      = ClaimOutcome.failed ("Failed to claim token: " ++ insufficientFundsGuidance)
    ∧ (∃ c, c ∈ (claimCompressedTokenLight envClaimInsufficient "1" "WalletR" dbReady).2.1.claims
        ∧ c.id = 1 ∧ c.status = ClaimStatus.failed
        ∧ c.errorMessage = some insufficientFundsGuidance)
    ∧ jsIncludes insufficientFundsGuidance "add more SOL" = true
    ∧ insufficientFundsGuidance ≠ "Transaction simulation failed: insufficient funds for rent" :=
  c8_theorem envClaimInsufficient "1" "WalletR" dbReady db1Ready 1
    "Transaction simulation failed: insufficient funds for rent"
    (by decide) rfl (by decide)

/-- C8 (counterexample): a submission failure thrown as a
`SendTransactionError` with logs, whose message contains
`insufficient funds`, bypasses the classifier: the claim record is
updated to `failed` with `Transaction error: <joined logs>` — which
contains no add-more-funds guidance at all — so the original claim's
universal guarantee fails on this attempt. -/
theorem c8_counterexample :
    jsIncludes "Transfer failed: insufficient funds for rent" "insufficient funds" = true
    ∧ (claimCompressedTokenLight envClaimInsufLogs "1" "WalletR" dbReady).2.1.claims
        = [{ id := 1, eventId := "1", walletAddress := "WalletR"
             status := ClaimStatus.failed, transactionId := none
             errorMessage := some "Transaction error: Program log: insufficient funds"
             createdAt := "2025-02-01T00:00:00Z" }]
    ∧ jsIncludes "Transaction error: Program log: insufficient funds" "add more" = false := by
  decide

/-- C9: when the store read inside the duplicate check throws, the check
returns `false` instead of propagating the error, the claim run can never
exit with the already-claimed outcome, and — whenever the event and its
pool exist — the run proceeds to insert a pending record and attempt
submission exactly as if the wallet had never claimed. -/
theorem c9_theorem (env : ClaimEnv) (e w : String) (db : DB)
    (hf : env.hasClaimedFault = true) :
    claimService.hasWalletClaimedEvent true db e w = false
    ∧ (claimCompressedToken env e w db).1 ≠ ClaimOutcome.alreadyClaimed
    ∧ (∀ ev, eventService.getEventById db e = some ev →
        ∀ p, poolService.getPoolByMintAddress db ev.mintAddress = some p →
        ∃ db1 cid, claimPrepare env e w db = Except.ok (db1, cid)) := by
  have hchk : claimService.hasWalletClaimedEvent env.hasClaimedFault db e w = false := by
    rw [hf]
    rfl
  refine ⟨rfl, ?_, ?_⟩
  · unfold claimCompressedToken claimPrepare
    rw [hchk]
    simp only [Bool.false_eq_true, if_false]
    cases hev : eventService.getEventById db e with
    | none => simp
    | some ev =>
      cases hpl : poolService.getPoolByMintAddress db ev.mintAddress with
      | none => simp [hpl]
      | some p =>
        cases htr : env.transferResult with
        | ok txId => simp [hpl, htr]
        | error err => simp [hpl, htr]
  · intro ev hev p hpl
    refine ⟨(claimService.saveClaim db (pendingClaim env e w)).1,
            (claimService.saveClaim db (pendingClaim env e w)).2, ?_⟩
    unfold claimPrepare
    simp [hchk, hev, hpl]

/-- C9 (witness): with a faulting duplicate-check read, a wallet whose
claim is already `confirmed` nonetheless passes the check and reaches the
pending insert. -/
theorem c9_witness :
    claimService.hasWalletClaimedEvent true dbConfirmedClaim "1" "WalletA" = false
    ∧ (claimCompressedToken envClaimFault "1" "WalletA" dbConfirmedClaim).1
        ≠ ClaimOutcome.alreadyClaimed
    ∧ ∃ db1 cid, claimPrepare envClaimFault "1" "WalletA" dbConfirmedClaim
        = Except.ok (db1, cid) :=
  ⟨(c9_theorem envClaimFault "1" "WalletA" dbConfirmedClaim rfl).1,
   (c9_theorem envClaimFault "1" "WalletA" dbConfirmedClaim rfl).2.1,
   (c9_theorem envClaimFault "1" "WalletA" dbConfirmedClaim rfl).2.2
     (mkEvent 1 "MintA") (by decide) (mkPool "MintA") (by decide)⟩

/-- C10 (counterexample): the event id string `"+5"` does not begin with a
decimal digit, yet `parseInt` reads it as `5`, so against a store whose
auto-increment event 5 exists the lookup returns that event instead of
null. -/
theorem c10_counterexample :
    eventService.getEventById dbEventFive "+5" = some (mkEvent 5 "MintA") := by decide

/-- C10 (amended): the event lookup converts the supplied id with
`parseInt` and matches it against the numeric auto-increment primary key,
so for every event id string whose `parseInt` is `NaN` — in particular
every id of the form `event-<hex>` — the lookup returns null, and a claim
call that passes the duplicate check then fails with the event-not-found
error, leaving the store unchanged (no Claim record inserted) and an
empty action trace. -/
theorem c10_theorem (env : ClaimEnv) (e w : String) (db : DB)
    (hp : jsParseInt e = none) :
    eventService.getEventById db e = none
    ∧ (claimService.hasWalletClaimedEvent env.hasClaimedFault db e w = false →
        claimCompressedToken env e w db = (ClaimOutcome.eventNotFound, db, [])) := by
  constructor
  · simp [eventService.getEventById, hp]
  · intro hnc
    simp [claimCompressedToken, claimPrepare, hnc, eventService.getEventById, hp]

/-- C10 (witness): a generated id of the `event-<hex>` shape parses to
`NaN`, the lookup misses, and the claim call fails with event-not-found
without inserting any record. -/
theorem c10_witness :
    eventService.getEventById dbReady "event-18f3a2b4c-4a5b6c" = none
    ∧ claimCompressedToken envClaimOk "event-18f3a2b4c-4a5b6c" "WalletR" dbReady
        = (ClaimOutcome.eventNotFound, dbReady, []) :=
  ⟨(c10_theorem envClaimOk "event-18f3a2b4c-4a5b6c" "WalletR" dbReady (by decide)).1,
   (c10_theorem envClaimOk "event-18f3a2b4c-4a5b6c" "WalletR" dbReady (by decide)).2
     (by decide)⟩
